import Mathlib

/-!
Shallow embedding of the `publish:gitlab:create-issue` scaffolder action of
the backstage repository, in its two source versions:

* version A: `src/unnamed/part_000` (merge-request flavoured schema, explicit
  token support, concatenate-all description, output key `mergeRequestUrl`);
* version B:
  `src/plugins/scaffolder-backend/src/scaffolder/actions/builtin/publish/gitlabIssue.ts`
  (issue flavoured schema, configured token only, single-file description,
  output key `issueUrl`).

External collaborators (repo-URL parser, integration registry, directory
serializer, remote GitLab API) are modelled as an environment of functions;
the handler itself is a pure function from the environment, the workspace
path and the validated input to a result, an ordered effect trace and the
list of recorded outputs.
-/

namespace Backstage

/-- One serialized workspace file (`{path, content}`); the `Buffer` content is
modelled as the string it decodes to via `toString()`. -/
structure SerializedFile where
  path : String
  content : String
deriving DecidableEq, Repr

/-- The integration registry's configuration record for a host
(`integrationConfig.config`): base URL and optional static token. -/
structure GitlabIntegrationConfig where
  baseUrl : String
  token : Option String
deriving DecidableEq, Repr

/-- Result of `parseRepoUrl`: `{host, owner, repo}`. -/
structure RepoLocator where
  host : String
  owner : String
  repo : String
deriving DecidableEq, Repr

/-- The validated input object as read by the two handlers.  Optional string
fields are `Option String`; a `some ""` models a field that is present but
empty (falsy in JavaScript). -/
structure ActionInput where
  repoUrl : String
  title : String
  targetPath : String
  token : Option String
  projectid : Option String
deriving DecidableEq, Repr

/-- The remote project record returned by `api.Projects.show`; only its `id`
is consumed. -/
structure Project where
  id : Nat
deriving DecidableEq, Repr

/-- The remote response of `api.Issues.create`; only `web_url` is consumed. -/
structure IssueRes where
  web_url : String
deriving DecidableEq, Repr

/-- The issue payload passed to `api.Issues.create`.  `description` is
`Option String` because version B's single-file lookup can yield
`undefined`. -/
structure Issue where
  title : String
  description : Option String
  labels : List String
deriving DecidableEq, Repr

/-- The effective credential handed to the `Gitlab` client constructor:
the computed dynamic key (`tokenType`) and the token value. -/
structure Credential where
  kind : String
  value : String
deriving DecidableEq, Repr

/-- Errors escaping the handler: `inputError` models a thrown
`InputError` (classified input/configuration error), `raw` any other
exception propagating unwrapped. -/
inductive HandlerError where
  | inputError (msg : String)
  | raw (msg : String)
deriving DecidableEq, Repr

/-- Observable side effects of one handler invocation, in program order. -/
inductive Effect where
  | logWarn (msg : String)
  | consoleWarn (msg : String)
  | consoleLog (msg : String)
  | fsSerialize (path : String)
  | netProjectShow (projectPath : String)
  | netIssueCreate (projectId : Nat) (issue : Issue)
deriving DecidableEq, Repr

/-- `Effect.isFsOrNet e` holds for filesystem serialization and network
effects, the ones the spec's abort-before-work claims are about. -/
def Effect.isFsOrNet : Effect → Bool
  | .fsSerialize _ => true
  | .netProjectShow _ => true
  | .netIssueCreate _ _ => true
  | _ => false

/-- The external collaborators consumed by the handler.  Each fallible
collaborator returns `Except`; `parseRepoUrl` throws `InputError` on bad
URLs, the two remote calls and the serializer may fail arbitrarily
(`projectsShow` with any error kind, since the handler never inspects it). -/
structure Env where
  parseRepoUrl : String → Except String RepoLocator
  byHost : String → Option GitlabIntegrationConfig
  serializeDirectoryContents : String → Except String (List SerializedFile)
  projectsShow : String → Except HandlerError Project
  issuesCreate : Nat → Issue → Except String IssueRes

/-- The outcome of one handler invocation: the returned/thrown result, the
ordered effect trace, the key/value pairs recorded through `ctx.output`, and
the credential with which the `Gitlab` client was constructed (`none` when
execution failed before the client construction). -/
structure HandlerOutcome where
  result : Except HandlerError Unit
  effects : List Effect
  outputs : List (String × String)
  credential : Option Credential
deriving Repr

/-- JavaScript truthiness of an optional string: absent and the empty string
are falsy. -/
def truthy : Option String → Bool
  | none => false
  | some s => s ≠ ""

/-- The deprecation warning string both versions log when `projectid` is
supplied. -/
def deprecationWarning : String :=
  "Property \"projectid\" is deprecated and no longer to needed to create a MR"

/-- `No matching integration configuration ...` message. -/
def noIntegrationMsg (host : String) : String :=
  "No matching integration configuration for host " ++ host ++
    ", please check your integrations config"

/-- `No token available ...` message. -/
def noTokenMsg (host : String) : String :=
  "No token available for host " ++ host

/-- The wrapped message thrown when `api.Issues.create` fails. -/
def createFailedMsg (projectPath cause : String) : String :=
  "Creating the issue to " ++ projectPath ++ " failed " ++ cause

/-- The project path both handlers use: `owner/repo` from the parsed URL,
overridden by the deprecated `projectid` input when that input is truthy. -/
def projectPathOf (loc : RepoLocator) (input : ActionInput) : String :=
  if truthy input.projectid then input.projectid.getD ""
  else loc.owner ++ "/" ++ loc.repo

/-- The deprecation effects emitted while computing the project path:
`ctx.logger.warn` followed by `console.warn`, only when `projectid` is
truthy. -/
def warnEffects (input : ActionInput) : List Effect :=
  if truthy input.projectid then
    [Effect.logWarn deprecationWarning, Effect.consoleWarn deprecationWarning]
  else []

/-- Version A's credential (lines 140-141 of `part_000`):
`token = ctx.input.token ?? integrationConfig.config.token!` (nullish
coalescing, so a present-but-empty explicit token is used) and
`tokenType = ctx.input.token ? 'oauthToken' : 'token'` (truthiness). -/
def credentialA (cfg : GitlabIntegrationConfig) (input : ActionInput) : Credential :=
  ⟨if truthy input.token then "oauthToken" else "token",
   match input.token with
   | some t => t
   | none => cfg.token.getD ""⟩

/-- Version B's credential (lines 113-114 of `gitlabIssue.ts`):
`token = integrationConfig.config.token!` and `tokenType = 'token'`,
regardless of `ctx.input.token`. -/
def credentialB (cfg : GitlabIntegrationConfig) (_input : ActionInput) : Credential :=
  ⟨"token", cfg.token.getD ""⟩

/-- Version A's description (line 156 of `part_000`):
`fileContents.map(file => file.content.toString()).join()` — JavaScript
`Array.prototype.join` with no argument separates elements with `","`. -/
def descA (files : List SerializedFile) : String :=
  String.intercalate "," (files.map (·.content))

/-- Version B's description (lines 129-131 of `gitlabIssue.ts`):
`fileContents.find(file => file.path === ctx.input.targetPath)?.content.toString()`. -/
def descB (files : List SerializedFile) (targetPath : String) : Option String :=
  (files.find? (fun file => file.path == targetPath)).map (·.content)

/-- Splits a character list on `/`, structurally (so that concrete paths
evaluate by kernel reduction). -/
def splitOnSlash : List Char → List (List Char)
  | [] => [[]]
  | c :: rest =>
    let r := splitOnSlash rest
    if c = '/' then [] :: r
    else
      match r with
      | [] => [[c]]
      | s :: ss => (c :: s) :: ss

/-- Modelled from the spec: `resolveSafeChildPath` is imported from
`@backstage/backend-common`, whose implementation is not under `src/`.  The
spec states the join "MUST reject any path that escapes the workspace root
(containment invariant), failing with an input error rather than silently
clamping".  `escapes segs depth` walks the relative path's `/`-separated
segments keeping the current depth under the root; a `..` at depth zero
escapes. -/
def escapes : List (List Char) → Nat → Bool
  | [], _ => false
  | seg :: rest, depth =>
    if seg = ['.', '.'] then
      match depth with
      | 0 => true
      | d + 1 => escapes rest d
    else if seg = [] ∨ seg = ['.'] then escapes rest depth
    else escapes rest (depth + 1)

/-- Modelled from the spec: whether a caller-supplied relative `targetPath`
escapes the workspace root. -/
def pathEscapes (rel : String) : Bool :=
  escapes (splitOnSlash rel.data) 0

/-- Modelled from the spec: the safe join of the workspace root with the
caller-supplied relative `targetPath`; rejects escaping paths with a
classified input error and otherwise returns the joined path. -/
def resolveSafeChildPath (base rel : String) : Except HandlerError String :=
  if pathEscapes rel then
    .error (.inputError
      ("Relative path is not allowed to refer to a directory outside its parent: " ++ rel))
  else
    .ok (base ++ "/" ++ rel)

/-- The issue payload version A passes to `api.Issues.create` (lines
161-165 of `part_000`): title unchanged, comma-joined description, the
singleton label list. -/
def issueOfA (input : ActionInput) (files : List SerializedFile) : Issue :=
  ⟨input.title, some (descA files), ["onboarding"]⟩

/-- The issue payload version B passes to `api.Issues.create` (lines
135-139 of `gitlabIssue.ts`): title unchanged, single-file-lookup
description, the singleton label list. -/
def issueOfB (input : ActionInput) (files : List SerializedFile) : Issue :=
  ⟨input.title, descB files input.targetPath, ["onboarding"]⟩

/-- The output schema keys declared by version A (`part_000`, lines
97-114): note the capitalised `mergeRequestURL`. -/
def outputSchemaKeysA : List String :=
  ["projectid", "projectPath", "mergeRequestURL"]

/-- The output schema keys declared by version B (`gitlabIssue.ts`, lines
70-87). -/
def outputSchemaKeysB : List String :=
  ["projectid", "projectPath", "issueUrl"]

/-- The handler of version A (`src/unnamed/part_000`, lines 116-180),
step for step: parse the repo URL, compute the project path (with the
deprecated `projectid` override and warnings), look up the integration,
check token availability, build the credential, safely resolve the target
path, serialize the directory, build the comma-joined description, look up
the project, create the issue and record the three outputs, wrapping only
the creation failure in an `InputError`. -/
def handlerA (env : Env) (workspacePath : String) (input : ActionInput) : HandlerOutcome :=
  match env.parseRepoUrl input.repoUrl with
  | .error msg => ⟨.error (.inputError msg), [], [], none⟩
  | .ok loc =>
    let projectPath := projectPathOf loc input
    let warns := warnEffects input
    match env.byHost loc.host with
    | none => ⟨.error (.inputError (noIntegrationMsg loc.host)), warns, [], none⟩
    | some cfg =>
      if !truthy cfg.token && !truthy input.token then
        ⟨.error (.inputError (noTokenMsg loc.host)), warns, [], none⟩
      else
        let cred := credentialA cfg input
        match resolveSafeChildPath workspacePath input.targetPath with
        | .error e => ⟨.error e, warns, [], some cred⟩
        | .ok targetPath =>
          match env.serializeDirectoryContents targetPath with
          | .error msg =>
            ⟨.error (.raw msg), warns ++ [.fsSerialize targetPath], [], some cred⟩
          | .ok files =>
            match env.projectsShow projectPath with
            | .error e =>
              ⟨.error e, warns ++ [.fsSerialize targetPath, .netProjectShow projectPath],
               [], some cred⟩
            | .ok proj =>
              let issue : Issue := issueOfA input files
              match env.issuesCreate proj.id issue with
              | .error cause =>
                ⟨.error (.inputError (createFailedMsg projectPath cause)),
                 warns ++ [.fsSerialize targetPath, .netProjectShow projectPath,
                   .consoleLog "got project", .consoleLog "Trying to create issue ",
                   .netIssueCreate proj.id issue],
                 [], some cred⟩
              | .ok issueRes =>
                ⟨.ok (),
                 warns ++ [.fsSerialize targetPath, .netProjectShow projectPath,
                   .consoleLog "got project", .consoleLog "Trying to create issue ",
                   .netIssueCreate proj.id issue, .consoleLog "Issue Created"],
                 [("projectid", projectPath), ("projectPath", projectPath),
                  ("mergeRequestUrl", issueRes.web_url)],
                 some cred⟩

/-- The handler of version B (`gitlabIssue.ts`, lines 89-154).  Differences
from version A: the credential always uses the configured token with kind
`token`; the description is the single-file lookup on the original
`targetPath` input; the resource URL is recorded under `issueUrl`. -/
def handlerB (env : Env) (workspacePath : String) (input : ActionInput) : HandlerOutcome :=
  match env.parseRepoUrl input.repoUrl with
  | .error msg => ⟨.error (.inputError msg), [], [], none⟩
  | .ok loc =>
    let projectPath := projectPathOf loc input
    let warns := warnEffects input
    match env.byHost loc.host with
    | none => ⟨.error (.inputError (noIntegrationMsg loc.host)), warns, [], none⟩
    | some cfg =>
      if !truthy cfg.token && !truthy input.token then
        ⟨.error (.inputError (noTokenMsg loc.host)), warns, [], none⟩
      else
        let cred := credentialB cfg input
        match resolveSafeChildPath workspacePath input.targetPath with
        | .error e => ⟨.error e, warns, [], some cred⟩
        | .ok targetPath =>
          match env.serializeDirectoryContents targetPath with
          | .error msg =>
            ⟨.error (.raw msg), warns ++ [.fsSerialize targetPath], [], some cred⟩
          | .ok files =>
            match env.projectsShow projectPath with
            | .error e =>
              ⟨.error e,
               warns ++ [.fsSerialize targetPath,
                 .consoleLog "Getting file contents for ", .netProjectShow projectPath],
               [], some cred⟩
            | .ok proj =>
              let issue : Issue := issueOfB input files
              match env.issuesCreate proj.id issue with
              | .error cause =>
                ⟨.error (.inputError (createFailedMsg projectPath cause)),
                 warns ++ [.fsSerialize targetPath,
                   .consoleLog "Getting file contents for ", .netProjectShow projectPath,
                   .consoleLog "Trying to create issue ", .netIssueCreate proj.id issue],
                 [], some cred⟩
              | .ok issueRes =>
                ⟨.ok (),
                 warns ++ [.fsSerialize targetPath,
                   .consoleLog "Getting file contents for ", .netProjectShow projectPath,
                   .consoleLog "Trying to create issue ", .netIssueCreate proj.id issue,
                   .consoleLog "Issue Created"],
                 [("projectid", projectPath), ("projectPath", projectPath),
                  ("issueUrl", issueRes.web_url)],
                 some cred⟩

/-- The issue payload of the first `netIssueCreate` effect in the trace, if
any: the payload actually submitted to the remote API. -/
def createdIssue (o : HandlerOutcome) : Option Issue :=
  o.effects.findSome? fun e =>
    match e with
    | .netIssueCreate _ issue => some issue
    | _ => none

/-- A concrete collaborator environment for closed evaluations: the URL
parses to `gitlab.com/org/repo`, the integration has a configured token,
the serializer returns two files and the remote calls succeed. -/
def testEnv : Env where
  parseRepoUrl := fun _ => .ok ⟨"gitlab.com", "org", "repo"⟩
  byHost := fun _ => some ⟨"https://gitlab.com", some "cfgtok"⟩
  serializeDirectoryContents := fun _ => .ok [⟨"a.md", "X"⟩, ⟨"b.md", "Y"⟩]
  projectsShow := fun _ => .ok ⟨42⟩
  issuesCreate := fun _ _ => .ok ⟨"https://gitlab.com/org/repo/-/issues/1"⟩

/-- `testEnv` with no integration configuration for any host. -/
def noIntegrationEnv : Env := { testEnv with byHost := fun _ => none }

/-- `testEnv` with an integration configuration that carries no token. -/
def noCfgTokenEnv : Env :=
  { testEnv with byHost := fun _ => some ⟨"https://gitlab.com", none⟩ }

/-- `testEnv` whose project lookup fails with a raw (unclassified) error. -/
def lookupFailEnv : Env :=
  { testEnv with projectsShow := fun _ => .error (.raw "404 Project Not Found") }

/-- `testEnv` whose issue creation fails. -/
def createFailEnv : Env :=
  { testEnv with issuesCreate := fun _ _ => .error "Error: 403 Forbidden" }

/-- A baseline input: no explicit token, no deprecated `projectid`. -/
def baseInput : ActionInput :=
  ⟨"gitlab.com/org/repo", "Onboarding", "docs", none, none⟩

/-! ### Branch characterizations of the two handlers -/

theorem handlerA_parse_err (env : Env) (ws : String) (input : ActionInput) (msg : String)
    (h1 : env.parseRepoUrl input.repoUrl = .error msg) :
    handlerA env ws input = ⟨.error (.inputError msg), [], [], none⟩ := by
  simp [handlerA, h1]

theorem handlerA_no_integration (env : Env) (ws : String) (input : ActionInput)
    (loc : RepoLocator)
    (h1 : env.parseRepoUrl input.repoUrl = .ok loc)
    (h2 : env.byHost loc.host = none) :
    handlerA env ws input =
      ⟨.error (.inputError (noIntegrationMsg loc.host)), warnEffects input, [], none⟩ := by
  simp [handlerA, h1, h2]

theorem handlerA_no_token (env : Env) (ws : String) (input : ActionInput)
    (loc : RepoLocator) (cfg : GitlabIntegrationConfig)
    (h1 : env.parseRepoUrl input.repoUrl = .ok loc)
    (h2 : env.byHost loc.host = some cfg)
    (h3 : (!truthy cfg.token && !truthy input.token) = true) :
    handlerA env ws input =
      ⟨.error (.inputError (noTokenMsg loc.host)), warnEffects input, [], none⟩ := by
  simp [handlerA, h1, h2, h3]

theorem handlerA_contain_err (env : Env) (ws : String) (input : ActionInput)
    (loc : RepoLocator) (cfg : GitlabIntegrationConfig) (e : HandlerError)
    (h1 : env.parseRepoUrl input.repoUrl = .ok loc)
    (h2 : env.byHost loc.host = some cfg)
    (h3 : (!truthy cfg.token && !truthy input.token) = false)
    (h4 : resolveSafeChildPath ws input.targetPath = .error e) :
    handlerA env ws input =
      ⟨.error e, warnEffects input, [], some (credentialA cfg input)⟩ := by
  simp [handlerA, h1, h2, h3, h4]

theorem handlerA_serialize_err (env : Env) (ws : String) (input : ActionInput)
    (loc : RepoLocator) (cfg : GitlabIntegrationConfig) (tp msg : String)
    (h1 : env.parseRepoUrl input.repoUrl = .ok loc)
    (h2 : env.byHost loc.host = some cfg)
    (h3 : (!truthy cfg.token && !truthy input.token) = false)
    (h4 : resolveSafeChildPath ws input.targetPath = .ok tp)
    (h5 : env.serializeDirectoryContents tp = .error msg) :
    handlerA env ws input =
      ⟨.error (.raw msg), warnEffects input ++ [.fsSerialize tp], [],
       some (credentialA cfg input)⟩ := by
  simp [handlerA, h1, h2, h3, h4, h5]

theorem handlerA_lookup_err (env : Env) (ws : String) (input : ActionInput)
    (loc : RepoLocator) (cfg : GitlabIntegrationConfig) (tp : String)
    (files : List SerializedFile) (e : HandlerError)
    (h1 : env.parseRepoUrl input.repoUrl = .ok loc)
    (h2 : env.byHost loc.host = some cfg)
    (h3 : (!truthy cfg.token && !truthy input.token) = false)
    (h4 : resolveSafeChildPath ws input.targetPath = .ok tp)
    (h5 : env.serializeDirectoryContents tp = .ok files)
    (h6 : env.projectsShow (projectPathOf loc input) = .error e) :
    handlerA env ws input =
      ⟨.error e,
       warnEffects input ++ [.fsSerialize tp, .netProjectShow (projectPathOf loc input)],
       [], some (credentialA cfg input)⟩ := by
  simp [handlerA, h1, h2, h3, h4, h5, h6]

theorem handlerA_create_err (env : Env) (ws : String) (input : ActionInput)
    (loc : RepoLocator) (cfg : GitlabIntegrationConfig) (tp : String)
    (files : List SerializedFile) (proj : Project) (cause : String)
    (h1 : env.parseRepoUrl input.repoUrl = .ok loc)
    (h2 : env.byHost loc.host = some cfg)
    (h3 : (!truthy cfg.token && !truthy input.token) = false)
    (h4 : resolveSafeChildPath ws input.targetPath = .ok tp)
    (h5 : env.serializeDirectoryContents tp = .ok files)
    (h6 : env.projectsShow (projectPathOf loc input) = .ok proj)
    (h7 : env.issuesCreate proj.id (issueOfA input files) = .error cause) :
    handlerA env ws input =
      ⟨.error (.inputError (createFailedMsg (projectPathOf loc input) cause)),
       warnEffects input ++ [.fsSerialize tp, .netProjectShow (projectPathOf loc input),
         .consoleLog "got project", .consoleLog "Trying to create issue ",
         .netIssueCreate proj.id (issueOfA input files)],
       [], some (credentialA cfg input)⟩ := by
  simp [handlerA, h1, h2, h3, h4, h5, h6, h7]

theorem handlerA_success (env : Env) (ws : String) (input : ActionInput)
    (loc : RepoLocator) (cfg : GitlabIntegrationConfig) (tp : String)
    (files : List SerializedFile) (proj : Project) (res : IssueRes)
    (h1 : env.parseRepoUrl input.repoUrl = .ok loc)
    (h2 : env.byHost loc.host = some cfg)
    (h3 : (!truthy cfg.token && !truthy input.token) = false)
    (h4 : resolveSafeChildPath ws input.targetPath = .ok tp)
    (h5 : env.serializeDirectoryContents tp = .ok files)
    (h6 : env.projectsShow (projectPathOf loc input) = .ok proj)
    (h7 : env.issuesCreate proj.id (issueOfA input files) = .ok res) :
    handlerA env ws input =
      ⟨.ok (),
       warnEffects input ++ [.fsSerialize tp, .netProjectShow (projectPathOf loc input),
         .consoleLog "got project", .consoleLog "Trying to create issue ",
         .netIssueCreate proj.id (issueOfA input files), .consoleLog "Issue Created"],
       [("projectid", projectPathOf loc input), ("projectPath", projectPathOf loc input),
        ("mergeRequestUrl", res.web_url)],
       some (credentialA cfg input)⟩ := by
  simp [handlerA, h1, h2, h3, h4, h5, h6, h7]

theorem handlerB_parse_err (env : Env) (ws : String) (input : ActionInput) (msg : String)
    (h1 : env.parseRepoUrl input.repoUrl = .error msg) :
    handlerB env ws input = ⟨.error (.inputError msg), [], [], none⟩ := by
  simp [handlerB, h1]

theorem handlerB_no_integration (env : Env) (ws : String) (input : ActionInput)
    (loc : RepoLocator)
    (h1 : env.parseRepoUrl input.repoUrl = .ok loc)
    (h2 : env.byHost loc.host = none) :
    handlerB env ws input =
      ⟨.error (.inputError (noIntegrationMsg loc.host)), warnEffects input, [], none⟩ := by
  simp [handlerB, h1, h2]

theorem handlerB_no_token (env : Env) (ws : String) (input : ActionInput)
    (loc : RepoLocator) (cfg : GitlabIntegrationConfig)
    (h1 : env.parseRepoUrl input.repoUrl = .ok loc)
    (h2 : env.byHost loc.host = some cfg)
    (h3 : (!truthy cfg.token && !truthy input.token) = true) :
    handlerB env ws input =
      ⟨.error (.inputError (noTokenMsg loc.host)), warnEffects input, [], none⟩ := by
  simp [handlerB, h1, h2, h3]

theorem handlerB_contain_err (env : Env) (ws : String) (input : ActionInput)
    (loc : RepoLocator) (cfg : GitlabIntegrationConfig) (e : HandlerError)
    (h1 : env.parseRepoUrl input.repoUrl = .ok loc)
    (h2 : env.byHost loc.host = some cfg)
    (h3 : (!truthy cfg.token && !truthy input.token) = false)
    (h4 : resolveSafeChildPath ws input.targetPath = .error e) :
    handlerB env ws input =
      ⟨.error e, warnEffects input, [], some (credentialB cfg input)⟩ := by
  simp [handlerB, h1, h2, h3, h4]

theorem handlerB_serialize_err (env : Env) (ws : String) (input : ActionInput)
    (loc : RepoLocator) (cfg : GitlabIntegrationConfig) (tp msg : String)
    (h1 : env.parseRepoUrl input.repoUrl = .ok loc)
    (h2 : env.byHost loc.host = some cfg)
    (h3 : (!truthy cfg.token && !truthy input.token) = false)
    (h4 : resolveSafeChildPath ws input.targetPath = .ok tp)
    (h5 : env.serializeDirectoryContents tp = .error msg) :
    handlerB env ws input =
      ⟨.error (.raw msg), warnEffects input ++ [.fsSerialize tp], [],
       some (credentialB cfg input)⟩ := by
  simp [handlerB, h1, h2, h3, h4, h5]

theorem handlerB_lookup_err (env : Env) (ws : String) (input : ActionInput)
    (loc : RepoLocator) (cfg : GitlabIntegrationConfig) (tp : String)
    (files : List SerializedFile) (e : HandlerError)
    (h1 : env.parseRepoUrl input.repoUrl = .ok loc)
    (h2 : env.byHost loc.host = some cfg)
    (h3 : (!truthy cfg.token && !truthy input.token) = false)
    (h4 : resolveSafeChildPath ws input.targetPath = .ok tp)
    (h5 : env.serializeDirectoryContents tp = .ok files)
    (h6 : env.projectsShow (projectPathOf loc input) = .error e) :
    handlerB env ws input =
      ⟨.error e,
       warnEffects input ++ [.fsSerialize tp, .consoleLog "Getting file contents for ",
         .netProjectShow (projectPathOf loc input)],
       [], some (credentialB cfg input)⟩ := by
  simp [handlerB, h1, h2, h3, h4, h5, h6]

theorem handlerB_create_err (env : Env) (ws : String) (input : ActionInput)
    (loc : RepoLocator) (cfg : GitlabIntegrationConfig) (tp : String)
    (files : List SerializedFile) (proj : Project) (cause : String)
    (h1 : env.parseRepoUrl input.repoUrl = .ok loc)
    (h2 : env.byHost loc.host = some cfg)
    (h3 : (!truthy cfg.token && !truthy input.token) = false)
    (h4 : resolveSafeChildPath ws input.targetPath = .ok tp)
    (h5 : env.serializeDirectoryContents tp = .ok files)
    (h6 : env.projectsShow (projectPathOf loc input) = .ok proj)
    (h7 : env.issuesCreate proj.id (issueOfB input files) = .error cause) :
    handlerB env ws input =
      ⟨.error (.inputError (createFailedMsg (projectPathOf loc input) cause)),
       warnEffects input ++ [.fsSerialize tp, .consoleLog "Getting file contents for ",
         .netProjectShow (projectPathOf loc input), .consoleLog "Trying to create issue ",
         .netIssueCreate proj.id (issueOfB input files)],
       [], some (credentialB cfg input)⟩ := by
  simp [handlerB, h1, h2, h3, h4, h5, h6, h7]

theorem handlerB_success (env : Env) (ws : String) (input : ActionInput)
    (loc : RepoLocator) (cfg : GitlabIntegrationConfig) (tp : String)
    (files : List SerializedFile) (proj : Project) (res : IssueRes)
    (h1 : env.parseRepoUrl input.repoUrl = .ok loc)
    (h2 : env.byHost loc.host = some cfg)
    (h3 : (!truthy cfg.token && !truthy input.token) = false)
    (h4 : resolveSafeChildPath ws input.targetPath = .ok tp)
    (h5 : env.serializeDirectoryContents tp = .ok files)
    (h6 : env.projectsShow (projectPathOf loc input) = .ok proj)
    (h7 : env.issuesCreate proj.id (issueOfB input files) = .ok res) :
    handlerB env ws input =
      ⟨.ok (),
       warnEffects input ++ [.fsSerialize tp, .consoleLog "Getting file contents for ",
         .netProjectShow (projectPathOf loc input), .consoleLog "Trying to create issue ",
         .netIssueCreate proj.id (issueOfB input files), .consoleLog "Issue Created"],
       [("projectid", projectPathOf loc input), ("projectPath", projectPathOf loc input),
        ("issueUrl", res.web_url)],
       some (credentialB cfg input)⟩ := by
  simp [handlerB, h1, h2, h3, h4, h5, h6, h7]

/-! ### Helper lemmas shared across claims -/

theorem truthy_some_true {s : String} (h : s ≠ "") : truthy (some s) = true := by
  simp [truthy, h]

theorem warnEffects_not_fsOrNet (input : ActionInput) :
    ∀ e ∈ warnEffects input, e.isFsOrNet = false := by
  intro e he
  cases htp : truthy input.projectid <;> simp [warnEffects, htp] at he
  rcases he with rfl | rfl <;> rfl

theorem createdIssue_warns_append (input : ActionInput) (r : Except HandlerError Unit)
    (rest : List Effect) (os : List (String × String)) (cred : Option Credential) :
    createdIssue (⟨r, warnEffects input ++ rest, os, cred⟩ : HandlerOutcome) =
      createdIssue ⟨r, rest, os, cred⟩ := by
  cases htp : truthy input.projectid <;> simp only [warnEffects, htp] <;> rfl

theorem handlerA_credential (env : Env) (ws : String) (input : ActionInput)
    (loc : RepoLocator) (cfg : GitlabIntegrationConfig)
    (h1 : env.parseRepoUrl input.repoUrl = .ok loc)
    (h2 : env.byHost loc.host = some cfg)
    (h3 : (!truthy cfg.token && !truthy input.token) = false) :
    (handlerA env ws input).credential = some (credentialA cfg input) := by
  cases h4 : resolveSafeChildPath ws input.targetPath with
  | error e => rw [handlerA_contain_err env ws input loc cfg e h1 h2 h3 h4]
  | ok tp =>
    cases h5 : env.serializeDirectoryContents tp with
    | error m => rw [handlerA_serialize_err env ws input loc cfg tp m h1 h2 h3 h4 h5]
    | ok files =>
      cases h6 : env.projectsShow (projectPathOf loc input) with
      | error e => rw [handlerA_lookup_err env ws input loc cfg tp files e h1 h2 h3 h4 h5 h6]
      | ok proj =>
        cases h7 : env.issuesCreate proj.id (issueOfA input files) with
        | error c =>
          rw [handlerA_create_err env ws input loc cfg tp files proj c h1 h2 h3 h4 h5 h6 h7]
        | ok res =>
          rw [handlerA_success env ws input loc cfg tp files proj res h1 h2 h3 h4 h5 h6 h7]

theorem handlerB_credential (env : Env) (ws : String) (input : ActionInput)
    (loc : RepoLocator) (cfg : GitlabIntegrationConfig)
    (h1 : env.parseRepoUrl input.repoUrl = .ok loc)
    (h2 : env.byHost loc.host = some cfg)
    (h3 : (!truthy cfg.token && !truthy input.token) = false) :
    (handlerB env ws input).credential = some (credentialB cfg input) := by
  cases h4 : resolveSafeChildPath ws input.targetPath with
  | error e => rw [handlerB_contain_err env ws input loc cfg e h1 h2 h3 h4]
  | ok tp =>
    cases h5 : env.serializeDirectoryContents tp with
    | error m => rw [handlerB_serialize_err env ws input loc cfg tp m h1 h2 h3 h4 h5]
    | ok files =>
      cases h6 : env.projectsShow (projectPathOf loc input) with
      | error e => rw [handlerB_lookup_err env ws input loc cfg tp files e h1 h2 h3 h4 h5 h6]
      | ok proj =>
        cases h7 : env.issuesCreate proj.id (issueOfB input files) with
        | error c =>
          rw [handlerB_create_err env ws input loc cfg tp files proj c h1 h2 h3 h4 h5 h6 h7]
        | ok res =>
          rw [handlerB_success env ws input loc cfg tp files proj res h1 h2 h3 h4 h5 h6 h7]

/-! ### C1 — credential resolution -/

/-- C1 counterexample: the claim says that when the caller supplies an
explicit token the effective credential kind is `oauthToken` with the
explicit token as value, in both source versions.  In version B
(`gitlabIssue.ts`) this fails: with a configured token `cfgtok` and an
explicit token `explicit-oauth`, the `Gitlab` client is constructed with
kind `token` and the configured token — the explicit value is ignored. -/
theorem c1_counterexample :
    (handlerB testEnv "/ws"
        { baseInput with token := some "explicit-oauth" }).credential =
      some ⟨"token", "cfgtok"⟩ ∧
    ¬ (handlerB testEnv "/ws"
        { baseInput with token := some "explicit-oauth" }).credential =
      some ⟨"oauthToken", "explicit-oauth"⟩ := by
  decide

/-- C1 (amended): for every invocation reaching the credential step (URL
parsed, integration found): (1) when neither the configured nor the
explicit token is present (truthy), both versions fail with the classified
`InputError` "No token available for host …"; (2) in version A a non-empty
explicit token yields kind `oauthToken` with the explicit value; (3) with
no explicit token and a non-empty configured token, version A yields kind
`token` with the configured value, and so does version B; (4) in version B
the credential is always kind `token` with the configured token (empty
when unset), whatever explicit token was supplied. -/
theorem c1_credential_resolution (env : Env) (ws : String) (input : ActionInput)
    (loc : RepoLocator) (cfg : GitlabIntegrationConfig)
    (h1 : env.parseRepoUrl input.repoUrl = .ok loc)
    (h2 : env.byHost loc.host = some cfg) :
    (truthy cfg.token = false → truthy input.token = false →
      (handlerA env ws input).result = .error (.inputError (noTokenMsg loc.host)) ∧
      (handlerB env ws input).result = .error (.inputError (noTokenMsg loc.host))) ∧
    (∀ t, input.token = some t → t ≠ "" →
      (handlerA env ws input).credential = some ⟨"oauthToken", t⟩) ∧
    (∀ c, input.token = none → cfg.token = some c → c ≠ "" →
      (handlerA env ws input).credential = some ⟨"token", c⟩ ∧
      (handlerB env ws input).credential = some ⟨"token", c⟩) ∧
    (truthy cfg.token = true ∨ truthy input.token = true →
      (handlerB env ws input).credential = some ⟨"token", cfg.token.getD ""⟩) := by
  refine ⟨?_, ?_, ?_, ?_⟩
  · intro hc ht
    have h3 : (!truthy cfg.token && !truthy input.token) = true := by simp [hc, ht]
    rw [handlerA_no_token env ws input loc cfg h1 h2 h3,
        handlerB_no_token env ws input loc cfg h1 h2 h3]
    exact ⟨rfl, rfl⟩
  · intro t ht hne
    have htr : truthy input.token = true := by rw [ht]; exact truthy_some_true hne
    have h3 : (!truthy cfg.token && !truthy input.token) = false := by simp [htr]
    rw [handlerA_credential env ws input loc cfg h1 h2 h3]
    simp [credentialA, ht, truthy_some_true hne]
  · intro c hnone hc hne
    have htr : truthy cfg.token = true := by rw [hc]; exact truthy_some_true hne
    have h3 : (!truthy cfg.token && !truthy input.token) = false := by simp [htr]
    rw [handlerA_credential env ws input loc cfg h1 h2 h3,
        handlerB_credential env ws input loc cfg h1 h2 h3]
    constructor
    · simp [credentialA, hnone, hc, truthy]
    · simp [credentialB, hc]
  · intro hor
    have h3 : (!truthy cfg.token && !truthy input.token) = false := by
      rcases hor with h | h <;> simp [h]
    rw [handlerB_credential env ws input loc cfg h1 h2 h3]
    simp [credentialB]

/-- C1 witness: the amended theorem applied to a concrete run of version A
with an explicit token. -/
theorem c1_credential_resolution_witness :
    (handlerA testEnv "/ws" { baseInput with token := some "explicit-oauth" }).credential =
      some ⟨"oauthToken", "explicit-oauth"⟩ :=
  (c1_credential_resolution testEnv "/ws" { baseInput with token := some "explicit-oauth" }
      ⟨"gitlab.com", "org", "repo"⟩ ⟨"https://gitlab.com", some "cfgtok"⟩ rfl rfl).2.1
    "explicit-oauth" rfl (by decide)

/-! ### C2 — concatenate-all description policy (version A) -/

theorem handlerA_createdIssue (env : Env) (ws : String) (input : ActionInput)
    (loc : RepoLocator) (cfg : GitlabIntegrationConfig) (tp : String)
    (files : List SerializedFile) (proj : Project)
    (h1 : env.parseRepoUrl input.repoUrl = .ok loc)
    (h2 : env.byHost loc.host = some cfg)
    (h3 : (!truthy cfg.token && !truthy input.token) = false)
    (h4 : resolveSafeChildPath ws input.targetPath = .ok tp)
    (h5 : env.serializeDirectoryContents tp = .ok files)
    (h6 : env.projectsShow (projectPathOf loc input) = .ok proj) :
    createdIssue (handlerA env ws input) = some (issueOfA input files) := by
  cases h7 : env.issuesCreate proj.id (issueOfA input files) with
  | error c =>
    rw [handlerA_create_err env ws input loc cfg tp files proj c h1 h2 h3 h4 h5 h6 h7,
        createdIssue_warns_append]
    rfl
  | ok res =>
    rw [handlerA_success env ws input loc cfg tp files proj res h1 h2 h3 h4 h5 h6 h7,
        createdIssue_warns_append]
    rfl

/-- C2 counterexample: the claim says the description equals the plain
concatenation of the file contents, e.g. `"X"` followed by `"Y"` giving
`"XY"`.  The code's `.join()` (JavaScript default separator) produces
`"X,Y"` instead. -/
theorem c2_counterexample :
    createdIssue (handlerA testEnv "/ws" baseInput) =
      some ⟨"Onboarding", some "X,Y", ["onboarding"]⟩ ∧
    "X,Y" ≠ "X" ++ "Y" := by
  decide

/-- C2 (amended): for every invocation of version A reaching issue
creation, the description of the submitted issue equals the content
strings of all serialized files in collector order joined with the `","`
separator (the JavaScript `Array.prototype.join` default), not their plain
concatenation. -/
theorem c2_description_comma_join (env : Env) (ws : String) (input : ActionInput)
    (loc : RepoLocator) (cfg : GitlabIntegrationConfig) (tp : String)
    (files : List SerializedFile) (proj : Project)
    (h1 : env.parseRepoUrl input.repoUrl = .ok loc)
    (h2 : env.byHost loc.host = some cfg)
    (h3 : (!truthy cfg.token && !truthy input.token) = false)
    (h4 : resolveSafeChildPath ws input.targetPath = .ok tp)
    (h5 : env.serializeDirectoryContents tp = .ok files)
    (h6 : env.projectsShow (projectPathOf loc input) = .ok proj) :
    createdIssue (handlerA env ws input) =
      some ⟨input.title,
        some (String.intercalate "," (files.map SerializedFile.content)),
        ["onboarding"]⟩ := by
  rw [handlerA_createdIssue env ws input loc cfg tp files proj h1 h2 h3 h4 h5 h6]
  rfl

/-- C2 witness: the amended theorem applied to a concrete run with files
`"X"` and `"Y"`. -/
theorem c2_description_comma_join_witness :
    createdIssue (handlerA testEnv "/ws" baseInput) =
      some ⟨"Onboarding", some (String.intercalate "," ["X", "Y"]), ["onboarding"]⟩ :=
  c2_description_comma_join testEnv "/ws" baseInput ⟨"gitlab.com", "org", "repo"⟩
    ⟨"https://gitlab.com", some "cfgtok"⟩ "/ws/docs"
    [⟨"a.md", "X"⟩, ⟨"b.md", "Y"⟩] ⟨42⟩ rfl rfl (by decide) rfl rfl rfl

/-! ### C3 — single-file description policy (version B) -/

theorem handlerB_createdIssue (env : Env) (ws : String) (input : ActionInput)
    (loc : RepoLocator) (cfg : GitlabIntegrationConfig) (tp : String)
    (files : List SerializedFile) (proj : Project)
    (h1 : env.parseRepoUrl input.repoUrl = .ok loc)
    (h2 : env.byHost loc.host = some cfg)
    (h3 : (!truthy cfg.token && !truthy input.token) = false)
    (h4 : resolveSafeChildPath ws input.targetPath = .ok tp)
    (h5 : env.serializeDirectoryContents tp = .ok files)
    (h6 : env.projectsShow (projectPathOf loc input) = .ok proj) :
    createdIssue (handlerB env ws input) = some (issueOfB input files) := by
  cases h7 : env.issuesCreate proj.id (issueOfB input files) with
  | error c =>
    rw [handlerB_create_err env ws input loc cfg tp files proj c h1 h2 h3 h4 h5 h6 h7,
        createdIssue_warns_append]
    rfl
  | ok res =>
    rw [handlerB_success env ws input loc cfg tp files proj res h1 h2 h3 h4 h5 h6 h7,
        createdIssue_warns_append]
    rfl

/-- C3: for every invocation of version B reaching issue creation, the
submitted issue's description is the content of the serialized file whose
path equals the original `targetPath` input exactly (when that file is
unique), and is absent (`undefined`) when no serialized file's path equals
`targetPath`. -/
theorem c3_single_file_description (env : Env) (ws : String) (input : ActionInput)
    (loc : RepoLocator) (cfg : GitlabIntegrationConfig) (tp : String)
    (files : List SerializedFile) (proj : Project)
    (h1 : env.parseRepoUrl input.repoUrl = .ok loc)
    (h2 : env.byHost loc.host = some cfg)
    (h3 : (!truthy cfg.token && !truthy input.token) = false)
    (h4 : resolveSafeChildPath ws input.targetPath = .ok tp)
    (h5 : env.serializeDirectoryContents tp = .ok files)
    (h6 : env.projectsShow (projectPathOf loc input) = .ok proj) :
    ((∀ f ∈ files, f.path ≠ input.targetPath) →
      createdIssue (handlerB env ws input) =
        some ⟨input.title, none, ["onboarding"]⟩) ∧
    (∀ f ∈ files, f.path = input.targetPath →
      (∀ g ∈ files, g.path = input.targetPath → g = f) →
      createdIssue (handlerB env ws input) =
        some ⟨input.title, some f.content, ["onboarding"]⟩) := by
  rw [handlerB_createdIssue env ws input loc cfg tp files proj h1 h2 h3 h4 h5 h6]
  constructor
  · intro hno
    have hfind : files.find? (fun file => file.path == input.targetPath) = none := by
      apply List.find?_eq_none.mpr
      intro f hf
      simp [hno f hf]
    simp [issueOfB, descB, hfind]
  · intro f hf hpath huniq
    cases hfind : files.find? (fun file => file.path == input.targetPath) with
    | none =>
      exfalso
      have := List.find?_eq_none.mp hfind f hf
      simp [hpath] at this
    | some g =>
      have hg1 : g.path = input.targetPath := by
        have hp := List.find?_some hfind
        simpa using hp
      have hg2 : g ∈ files := List.mem_of_find?_eq_some hfind
      have hgf : g = f := huniq g hg2 hg1
      subst hgf
      simp [issueOfB, descB, hfind]

/-- C3 witness: version B with `targetPath = "a.md"` and files
`[{a.md, X}, {b.md, Y}]` submits description `"X"`. -/
theorem c3_single_file_description_witness :
    createdIssue (handlerB testEnv "/ws" { baseInput with targetPath := "a.md" }) =
      some ⟨"Onboarding", some "X", ["onboarding"]⟩ :=
  (c3_single_file_description testEnv "/ws" { baseInput with targetPath := "a.md" }
      ⟨"gitlab.com", "org", "repo"⟩ ⟨"https://gitlab.com", some "cfgtok"⟩ "/ws/a.md"
      [⟨"a.md", "X"⟩, ⟨"b.md", "Y"⟩] ⟨42⟩ rfl rfl (by decide) rfl rfl rfl).2
    ⟨"a.md", "X"⟩ (by decide) rfl (by decide)

/-! ### C4 — project path determination -/

theorem handlerA_warn_mem (env : Env) (ws : String) (input : ActionInput)
    (loc : RepoLocator)
    (h1 : env.parseRepoUrl input.repoUrl = .ok loc)
    (htp : truthy input.projectid = true) :
    Effect.logWarn deprecationWarning ∈ (handlerA env ws input).effects := by
  have hw : Effect.logWarn deprecationWarning ∈ warnEffects input := by
    simp [warnEffects, htp]
  cases h2 : env.byHost loc.host with
  | none => rw [handlerA_no_integration env ws input loc h1 h2]; exact hw
  | some cfg =>
    cases h3 : (!truthy cfg.token && !truthy input.token) with
    | true => rw [handlerA_no_token env ws input loc cfg h1 h2 h3]; exact hw
    | false =>
      cases h4 : resolveSafeChildPath ws input.targetPath with
      | error e => rw [handlerA_contain_err env ws input loc cfg e h1 h2 h3 h4]; exact hw
      | ok tp =>
        cases h5 : env.serializeDirectoryContents tp with
        | error m =>
          rw [handlerA_serialize_err env ws input loc cfg tp m h1 h2 h3 h4 h5]
          exact List.mem_append_left _ hw
        | ok files =>
          cases h6 : env.projectsShow (projectPathOf loc input) with
          | error e =>
            rw [handlerA_lookup_err env ws input loc cfg tp files e h1 h2 h3 h4 h5 h6]
            exact List.mem_append_left _ hw
          | ok proj =>
            cases h7 : env.issuesCreate proj.id (issueOfA input files) with
            | error c =>
              rw [handlerA_create_err env ws input loc cfg tp files proj c
                    h1 h2 h3 h4 h5 h6 h7]
              exact List.mem_append_left _ hw
            | ok res =>
              rw [handlerA_success env ws input loc cfg tp files proj res
                    h1 h2 h3 h4 h5 h6 h7]
              exact List.mem_append_left _ hw

theorem handlerB_warn_mem (env : Env) (ws : String) (input : ActionInput)
    (loc : RepoLocator)
    (h1 : env.parseRepoUrl input.repoUrl = .ok loc)
    (htp : truthy input.projectid = true) :
    Effect.logWarn deprecationWarning ∈ (handlerB env ws input).effects := by
  have hw : Effect.logWarn deprecationWarning ∈ warnEffects input := by
    simp [warnEffects, htp]
  cases h2 : env.byHost loc.host with
  | none => rw [handlerB_no_integration env ws input loc h1 h2]; exact hw
  | some cfg =>
    cases h3 : (!truthy cfg.token && !truthy input.token) with
    | true => rw [handlerB_no_token env ws input loc cfg h1 h2 h3]; exact hw
    | false =>
      cases h4 : resolveSafeChildPath ws input.targetPath with
      | error e => rw [handlerB_contain_err env ws input loc cfg e h1 h2 h3 h4]; exact hw
      | ok tp =>
        cases h5 : env.serializeDirectoryContents tp with
        | error m =>
          rw [handlerB_serialize_err env ws input loc cfg tp m h1 h2 h3 h4 h5]
          exact List.mem_append_left _ hw
        | ok files =>
          cases h6 : env.projectsShow (projectPathOf loc input) with
          | error e =>
            rw [handlerB_lookup_err env ws input loc cfg tp files e h1 h2 h3 h4 h5 h6]
            exact List.mem_append_left _ hw
          | ok proj =>
            cases h7 : env.issuesCreate proj.id (issueOfB input files) with
            | error c =>
              rw [handlerB_create_err env ws input loc cfg tp files proj c
                    h1 h2 h3 h4 h5 h6 h7]
              exact List.mem_append_left _ hw
            | ok res =>
              rw [handlerB_success env ws input loc cfg tp files proj res
                    h1 h2 h3 h4 h5 h6 h7]
              exact List.mem_append_left _ hw

theorem handlerA_show_arg (env : Env) (ws : String) (input : ActionInput)
    (loc : RepoLocator) (pp : String)
    (h1 : env.parseRepoUrl input.repoUrl = .ok loc)
    (hmem : Effect.netProjectShow pp ∈ (handlerA env ws input).effects) :
    pp = projectPathOf loc input := by
  have hwarn : Effect.netProjectShow pp ∉ warnEffects input := by
    intro hcontra
    cases htp : truthy input.projectid <;> simp [warnEffects, htp] at hcontra
  cases h2 : env.byHost loc.host with
  | none =>
    rw [handlerA_no_integration env ws input loc h1 h2] at hmem
    exact absurd hmem hwarn
  | some cfg =>
    cases h3 : (!truthy cfg.token && !truthy input.token) with
    | true =>
      rw [handlerA_no_token env ws input loc cfg h1 h2 h3] at hmem
      exact absurd hmem hwarn
    | false =>
      cases h4 : resolveSafeChildPath ws input.targetPath with
      | error e =>
        rw [handlerA_contain_err env ws input loc cfg e h1 h2 h3 h4] at hmem
        exact absurd hmem hwarn
      | ok tp =>
        cases h5 : env.serializeDirectoryContents tp with
        | error m =>
          rw [handlerA_serialize_err env ws input loc cfg tp m h1 h2 h3 h4 h5] at hmem
          rcases List.mem_append.mp hmem with hw | hr
          · exact absurd hw hwarn
          · simp at hr
        | ok files =>
          cases h6 : env.projectsShow (projectPathOf loc input) with
          | error e =>
            rw [handlerA_lookup_err env ws input loc cfg tp files e h1 h2 h3 h4 h5 h6] at hmem
            rcases List.mem_append.mp hmem with hw | hr
            · exact absurd hw hwarn
            · simpa using hr
          | ok proj =>
            cases h7 : env.issuesCreate proj.id (issueOfA input files) with
            | error c =>
              rw [handlerA_create_err env ws input loc cfg tp files proj c
                    h1 h2 h3 h4 h5 h6 h7] at hmem
              rcases List.mem_append.mp hmem with hw | hr
              · exact absurd hw hwarn
              · simpa using hr
            | ok res =>
              rw [handlerA_success env ws input loc cfg tp files proj res
                    h1 h2 h3 h4 h5 h6 h7] at hmem
              rcases List.mem_append.mp hmem with hw | hr
              · exact absurd hw hwarn
              · simpa using hr

theorem handlerB_show_arg (env : Env) (ws : String) (input : ActionInput)
    (loc : RepoLocator) (pp : String)
    (h1 : env.parseRepoUrl input.repoUrl = .ok loc)
    (hmem : Effect.netProjectShow pp ∈ (handlerB env ws input).effects) :
    pp = projectPathOf loc input := by
  have hwarn : Effect.netProjectShow pp ∉ warnEffects input := by
    intro hcontra
    cases htp : truthy input.projectid <;> simp [warnEffects, htp] at hcontra
  cases h2 : env.byHost loc.host with
  | none =>
    rw [handlerB_no_integration env ws input loc h1 h2] at hmem
    exact absurd hmem hwarn
  | some cfg =>
    cases h3 : (!truthy cfg.token && !truthy input.token) with
    | true =>
      rw [handlerB_no_token env ws input loc cfg h1 h2 h3] at hmem
      exact absurd hmem hwarn
    | false =>
      cases h4 : resolveSafeChildPath ws input.targetPath with
      | error e =>
        rw [handlerB_contain_err env ws input loc cfg e h1 h2 h3 h4] at hmem
        exact absurd hmem hwarn
      | ok tp =>
        cases h5 : env.serializeDirectoryContents tp with
        | error m =>
          rw [handlerB_serialize_err env ws input loc cfg tp m h1 h2 h3 h4 h5] at hmem
          rcases List.mem_append.mp hmem with hw | hr
          · exact absurd hw hwarn
          · simp at hr
        | ok files =>
          cases h6 : env.projectsShow (projectPathOf loc input) with
          | error e =>
            rw [handlerB_lookup_err env ws input loc cfg tp files e h1 h2 h3 h4 h5 h6] at hmem
            rcases List.mem_append.mp hmem with hw | hr
            · exact absurd hw hwarn
            · simpa using hr
          | ok proj =>
            cases h7 : env.issuesCreate proj.id (issueOfB input files) with
            | error c =>
              rw [handlerB_create_err env ws input loc cfg tp files proj c
                    h1 h2 h3 h4 h5 h6 h7] at hmem
              rcases List.mem_append.mp hmem with hw | hr
              · exact absurd hw hwarn
              · simpa using hr
            | ok res =>
              rw [handlerB_success env ws input loc cfg tp files proj res
                    h1 h2 h3 h4 h5 h6 h7] at hmem
              rcases List.mem_append.mp hmem with hw | hr
              · exact absurd hw hwarn
              · simpa using hr

/-- C4 counterexample: the claim says a present `projectid` input takes
precedence and triggers the deprecation warning.  With `projectid` present
but empty (`some ""`) the JavaScript truthiness check skips the override:
the project lookup still uses `org/repo` (not the empty projectid) and no
deprecation warning is logged. -/
theorem c4_counterexample :
    ({ baseInput with projectid := some "" } : ActionInput).projectid = some "" ∧
    (handlerA testEnv "/ws" { baseInput with projectid := some "" }).effects.contains
      (Effect.netProjectShow "org/repo") = true ∧
    "org/repo" ≠ "" ∧
    Effect.logWarn deprecationWarning ∉
      (handlerA testEnv "/ws" { baseInput with projectid := some "" }).effects := by
  decide

/-- C4 (amended): under a parsed repo URL, when the deprecated `projectid`
input is present and non-empty it takes precedence (the project path equals
it) and the deprecation warning is logged through the pipeline's logger in
both versions; when `projectid` is absent the project path is
`owner/repo`; and every project-lookup network effect of either handler
uses exactly that project path. -/
theorem c4_project_path (env : Env) (ws : String) (input : ActionInput)
    (loc : RepoLocator)
    (h1 : env.parseRepoUrl input.repoUrl = .ok loc) :
    (∀ p, input.projectid = some p → p ≠ "" →
      projectPathOf loc input = p ∧
      Effect.logWarn deprecationWarning ∈ (handlerA env ws input).effects ∧
      Effect.logWarn deprecationWarning ∈ (handlerB env ws input).effects) ∧
    (input.projectid = none →
      projectPathOf loc input = loc.owner ++ "/" ++ loc.repo) ∧
    (∀ pp, Effect.netProjectShow pp ∈ (handlerA env ws input).effects →
      pp = projectPathOf loc input) ∧
    (∀ pp, Effect.netProjectShow pp ∈ (handlerB env ws input).effects →
      pp = projectPathOf loc input) := by
  refine ⟨?_, ?_, ?_, ?_⟩
  · intro p hp hne
    have htp : truthy input.projectid = true := by rw [hp]; exact truthy_some_true hne
    refine ⟨?_, handlerA_warn_mem env ws input loc h1 htp,
            handlerB_warn_mem env ws input loc h1 htp⟩
    simp [projectPathOf, hp, truthy_some_true hne]
  · intro hp
    simp [projectPathOf, hp, truthy]
  · intro pp hmem
    exact handlerA_show_arg env ws input loc pp h1 hmem
  · intro pp hmem
    exact handlerB_show_arg env ws input loc pp h1 hmem

/-- C4 witness: a concrete run with a non-empty deprecated `projectid`
overrides the path and logs the warning. -/
theorem c4_project_path_witness :
    projectPathOf ⟨"gitlab.com", "org", "repo"⟩
        { baseInput with projectid := some "custom/path" } = "custom/path" ∧
    Effect.logWarn deprecationWarning ∈
      (handlerA testEnv "/ws" { baseInput with projectid := some "custom/path" }).effects :=
  ⟨((c4_project_path testEnv "/ws" { baseInput with projectid := some "custom/path" }
      ⟨"gitlab.com", "org", "repo"⟩ rfl).1 "custom/path" rfl (by decide)).1,
   ((c4_project_path testEnv "/ws" { baseInput with projectid := some "custom/path" }
      ⟨"gitlab.com", "org", "repo"⟩ rfl).1 "custom/path" rfl (by decide)).2.1⟩

/-! ### C5 — missing-integration abort -/

/-- C5: in both versions, when the integration registry returns no
configuration for the parsed host, the handler fails with the classified
`InputError` naming the host, with no filesystem-serialization or network
effect in the trace and no output recorded. -/
theorem c5_missing_integration (env : Env) (ws : String) (input : ActionInput)
    (loc : RepoLocator)
    (h1 : env.parseRepoUrl input.repoUrl = .ok loc)
    (h2 : env.byHost loc.host = none) :
    ((handlerA env ws input).result = .error (.inputError (noIntegrationMsg loc.host)) ∧
     (∀ e ∈ (handlerA env ws input).effects, e.isFsOrNet = false) ∧
     (handlerA env ws input).outputs = []) ∧
    ((handlerB env ws input).result = .error (.inputError (noIntegrationMsg loc.host)) ∧
     (∀ e ∈ (handlerB env ws input).effects, e.isFsOrNet = false) ∧
     (handlerB env ws input).outputs = []) ∧
    (∃ pre post, noIntegrationMsg loc.host = pre ++ loc.host ++ post) := by
  rw [handlerA_no_integration env ws input loc h1 h2,
      handlerB_no_integration env ws input loc h1 h2]
  exact ⟨⟨rfl, warnEffects_not_fsOrNet input, rfl⟩,
         ⟨rfl, warnEffects_not_fsOrNet input, rfl⟩,
         "No matching integration configuration for host ",
         ", please check your integrations config", rfl⟩

/-- C5 witness: a concrete run against a registry that knows no host. -/
theorem c5_missing_integration_witness :
    (handlerA noIntegrationEnv "/ws" baseInput).result =
      .error (.inputError (noIntegrationMsg "gitlab.com")) :=
  (c5_missing_integration noIntegrationEnv "/ws" baseInput
      ⟨"gitlab.com", "org", "repo"⟩ rfl rfl).1.1

/-! ### C6 — success outputs and the output-key defect -/

/-- C6: on a concrete successful run, both versions report exactly three
outputs, with the resolved project path under both `projectid` and
`projectPath` (equal), the labels the singleton `["onboarding"]` and the
title unchanged; but version A records the resource URL under
`mergeRequestUrl`, a key its own declared output schema does not recognize
(the schema declares `mergeRequestURL`), contradicting the claim's
"resource-URL key recognized by the action's declared output schema"
(version B's `issueUrl` does match its schema). -/
theorem c6_output_key_bug :
    (handlerA testEnv "/ws" baseInput).result = .ok () ∧
    (handlerA testEnv "/ws" baseInput).outputs =
      [("projectid", "org/repo"), ("projectPath", "org/repo"),
       ("mergeRequestUrl", "https://gitlab.com/org/repo/-/issues/1")] ∧
    "mergeRequestUrl" ∉ outputSchemaKeysA ∧
    (handlerB testEnv "/ws" baseInput).outputs =
      [("projectid", "org/repo"), ("projectPath", "org/repo"),
       ("issueUrl", "https://gitlab.com/org/repo/-/issues/1")] ∧
    "issueUrl" ∈ outputSchemaKeysB ∧
    createdIssue (handlerA testEnv "/ws" baseInput) =
      some ⟨"Onboarding", some "X,Y", ["onboarding"]⟩ := by
  exact ⟨rfl, by decide, by decide, by decide, by decide, by decide⟩

/-! ### C7 — creation-failure classification -/

/-- C7: in both versions, when the remote issue-creation call fails, the
handler re-raises a classified `InputError` whose message is the template
"Creating the issue to … failed …" containing the literal project path and
the underlying cause message. -/
theorem c7_create_failure_classified (env : Env) (ws : String) (input : ActionInput)
    (loc : RepoLocator) (cfg : GitlabIntegrationConfig) (tp : String)
    (files : List SerializedFile) (proj : Project) (causeA causeB : String)
    (h1 : env.parseRepoUrl input.repoUrl = .ok loc)
    (h2 : env.byHost loc.host = some cfg)
    (h3 : (!truthy cfg.token && !truthy input.token) = false)
    (h4 : resolveSafeChildPath ws input.targetPath = .ok tp)
    (h5 : env.serializeDirectoryContents tp = .ok files)
    (h6 : env.projectsShow (projectPathOf loc input) = .ok proj)
    (h7a : env.issuesCreate proj.id (issueOfA input files) = .error causeA)
    (h7b : env.issuesCreate proj.id (issueOfB input files) = .error causeB) :
    (handlerA env ws input).result =
      .error (.inputError (createFailedMsg (projectPathOf loc input) causeA)) ∧
    (handlerB env ws input).result =
      .error (.inputError (createFailedMsg (projectPathOf loc input) causeB)) ∧
    (∀ pp cause, ∃ pre mid, createFailedMsg pp cause = pre ++ pp ++ mid ++ cause) := by
  rw [handlerA_create_err env ws input loc cfg tp files proj causeA h1 h2 h3 h4 h5 h6 h7a,
      handlerB_create_err env ws input loc cfg tp files proj causeB h1 h2 h3 h4 h5 h6 h7b]
  exact ⟨rfl, rfl, fun pp cause => ⟨"Creating the issue to ", " failed ", rfl⟩⟩

/-- C7 witness: a concrete run whose creation call fails with a 403. -/
theorem c7_create_failure_classified_witness :
    (handlerA createFailEnv "/ws" baseInput).result =
      .error (.inputError (createFailedMsg "org/repo" "Error: 403 Forbidden")) :=
  (c7_create_failure_classified createFailEnv "/ws" baseInput
      ⟨"gitlab.com", "org", "repo"⟩ ⟨"https://gitlab.com", some "cfgtok"⟩ "/ws/docs"
      [⟨"a.md", "X"⟩, ⟨"b.md", "Y"⟩] ⟨42⟩ "Error: 403 Forbidden" "Error: 403 Forbidden"
      rfl rfl (by decide) rfl rfl rfl rfl rfl).1

/-! ### C8 — lookup-failure asymmetry -/

/-- C8: in both versions, when the project-by-path lookup fails, the
failure propagates out of the handler exactly as raised — whatever the
error (classified or raw), the handler's result is that very error,
not a reclassified `InputError`. -/
theorem c8_lookup_failure_propagates (env : Env) (ws : String) (input : ActionInput)
    (loc : RepoLocator) (cfg : GitlabIntegrationConfig) (tp : String)
    (files : List SerializedFile) (e : HandlerError)
    (h1 : env.parseRepoUrl input.repoUrl = .ok loc)
    (h2 : env.byHost loc.host = some cfg)
    (h3 : (!truthy cfg.token && !truthy input.token) = false)
    (h4 : resolveSafeChildPath ws input.targetPath = .ok tp)
    (h5 : env.serializeDirectoryContents tp = .ok files)
    (h6 : env.projectsShow (projectPathOf loc input) = .error e) :
    (handlerA env ws input).result = .error e ∧
    (handlerB env ws input).result = .error e := by
  rw [handlerA_lookup_err env ws input loc cfg tp files e h1 h2 h3 h4 h5 h6,
      handlerB_lookup_err env ws input loc cfg tp files e h1 h2 h3 h4 h5 h6]
  exact ⟨rfl, rfl⟩

/-- C8 witness: a concrete run whose lookup fails with a raw 404; the raw
error surfaces unwrapped. -/
theorem c8_lookup_failure_propagates_witness :
    (handlerA lookupFailEnv "/ws" baseInput).result =
      .error (.raw "404 Project Not Found") :=
  (c8_lookup_failure_propagates lookupFailEnv "/ws" baseInput
      ⟨"gitlab.com", "org", "repo"⟩ ⟨"https://gitlab.com", some "cfgtok"⟩ "/ws/docs"
      [⟨"a.md", "X"⟩, ⟨"b.md", "Y"⟩] (.raw "404 Project Not Found")
      rfl rfl (by decide) rfl rfl rfl).1

/-! ### C9 — path containment -/

/-- C9: in both versions, when the caller-supplied `targetPath` escapes the
workspace root the safe join rejects it with a classified input error, and
the handler performs no filesystem serialization or network effect and
records no output. -/
theorem c9_containment (env : Env) (ws : String) (input : ActionInput)
    (loc : RepoLocator) (cfg : GitlabIntegrationConfig)
    (h1 : env.parseRepoUrl input.repoUrl = .ok loc)
    (h2 : env.byHost loc.host = some cfg)
    (h3 : (!truthy cfg.token && !truthy input.token) = false)
    (hesc : pathEscapes input.targetPath = true) :
    ((handlerA env ws input).result =
      .error (.inputError
        ("Relative path is not allowed to refer to a directory outside its parent: " ++
          input.targetPath)) ∧
     (∀ e ∈ (handlerA env ws input).effects, e.isFsOrNet = false) ∧
     (handlerA env ws input).outputs = []) ∧
    ((handlerB env ws input).result =
      .error (.inputError
        ("Relative path is not allowed to refer to a directory outside its parent: " ++
          input.targetPath)) ∧
     (∀ e ∈ (handlerB env ws input).effects, e.isFsOrNet = false) ∧
     (handlerB env ws input).outputs = []) := by
  have h4 : resolveSafeChildPath ws input.targetPath =
      .error (.inputError
        ("Relative path is not allowed to refer to a directory outside its parent: " ++
          input.targetPath)) := by
    simp [resolveSafeChildPath, hesc]
  rw [handlerA_contain_err env ws input loc cfg _ h1 h2 h3 h4,
      handlerB_contain_err env ws input loc cfg _ h1 h2 h3 h4]
  exact ⟨⟨rfl, warnEffects_not_fsOrNet input, rfl⟩,
         ⟨rfl, warnEffects_not_fsOrNet input, rfl⟩⟩

/-- C9 witness: the escaping path `"../../etc"` is rejected on a concrete
run before any filesystem read. -/
theorem c9_containment_witness :
    pathEscapes "../../etc" = true ∧
    (handlerA testEnv "/ws" { baseInput with targetPath := "../../etc" }).outputs = [] :=
  ⟨by decide,
   ((c9_containment testEnv "/ws" { baseInput with targetPath := "../../etc" }
      ⟨"gitlab.com", "org", "repo"⟩ ⟨"https://gitlab.com", some "cfgtok"⟩
      rfl rfl (by decide) (by decide)).1).2.2⟩

/-! ### C10 — output atomicity on failure -/

/-- C10: on every failure path of either handler the output sink receives
nothing: whenever the result is an error, the recorded output list is
empty. -/
theorem c10_no_output_on_failure (env : Env) (ws : String) (input : ActionInput)
    (err : HandlerError) :
    ((handlerA env ws input).result = .error err → (handlerA env ws input).outputs = []) ∧
    ((handlerB env ws input).result = .error err → (handlerB env ws input).outputs = []) := by
  constructor
  · intro h
    cases h1 : env.parseRepoUrl input.repoUrl with
    | error m => rw [handlerA_parse_err env ws input m h1]
    | ok loc =>
      cases h2 : env.byHost loc.host with
      | none => rw [handlerA_no_integration env ws input loc h1 h2]
      | some cfg =>
        cases h3 : (!truthy cfg.token && !truthy input.token) with
        | true => rw [handlerA_no_token env ws input loc cfg h1 h2 h3]
        | false =>
          cases h4 : resolveSafeChildPath ws input.targetPath with
          | error e => rw [handlerA_contain_err env ws input loc cfg e h1 h2 h3 h4]
          | ok tp =>
            cases h5 : env.serializeDirectoryContents tp with
            | error m => rw [handlerA_serialize_err env ws input loc cfg tp m h1 h2 h3 h4 h5]
            | ok files =>
              cases h6 : env.projectsShow (projectPathOf loc input) with
              | error e =>
                rw [handlerA_lookup_err env ws input loc cfg tp files e h1 h2 h3 h4 h5 h6]
              | ok proj =>
                cases h7 : env.issuesCreate proj.id (issueOfA input files) with
                | error c =>
                  rw [handlerA_create_err env ws input loc cfg tp files proj c
                        h1 h2 h3 h4 h5 h6 h7]
                | ok res =>
                  rw [handlerA_success env ws input loc cfg tp files proj res
                        h1 h2 h3 h4 h5 h6 h7] at h
                  simp at h
  · intro h
    cases h1 : env.parseRepoUrl input.repoUrl with
    | error m => rw [handlerB_parse_err env ws input m h1]
    | ok loc =>
      cases h2 : env.byHost loc.host with
      | none => rw [handlerB_no_integration env ws input loc h1 h2]
      | some cfg =>
        cases h3 : (!truthy cfg.token && !truthy input.token) with
        | true => rw [handlerB_no_token env ws input loc cfg h1 h2 h3]
        | false =>
          cases h4 : resolveSafeChildPath ws input.targetPath with
          | error e => rw [handlerB_contain_err env ws input loc cfg e h1 h2 h3 h4]
          | ok tp =>
            cases h5 : env.serializeDirectoryContents tp with
            | error m => rw [handlerB_serialize_err env ws input loc cfg tp m h1 h2 h3 h4 h5]
            | ok files =>
              cases h6 : env.projectsShow (projectPathOf loc input) with
              | error e =>
                rw [handlerB_lookup_err env ws input loc cfg tp files e h1 h2 h3 h4 h5 h6]
              | ok proj =>
                cases h7 : env.issuesCreate proj.id (issueOfB input files) with
                | error c =>
                  rw [handlerB_create_err env ws input loc cfg tp files proj c
                        h1 h2 h3 h4 h5 h6 h7]
                | ok res =>
                  rw [handlerB_success env ws input loc cfg tp files proj res
                        h1 h2 h3 h4 h5 h6 h7] at h
                  simp at h

/-- C10 witness: a concrete failing run (missing integration) records no
output. -/
theorem c10_no_output_on_failure_witness :
    (handlerA noIntegrationEnv "/ws" baseInput).outputs = [] :=
  (c10_no_output_on_failure noIntegrationEnv "/ws" baseInput
      (.inputError (noIntegrationMsg "gitlab.com"))).1 rfl

end Backstage
